import Mathlib

/-
Verification of src/examples/test-http-navigate.py (repository darwinOrg/ts-cdp).

The script is a linear sequence of HTTP requests against a browser-automation
server, with console logging, one local file write (the screenshot), and two
outer exception handlers.  We embed it as a trace-producing interpreter: the
behaviour of the remote server (and of the local file system) is an explicit
environment `Env`, and running the script against an environment yields the
list of observable events (console prints, attempted HTTP requests together
with their outcomes, file writes, sleeps) plus the way the run ended.

Modelling notes:
  * JSON values are modelled by `Json`; numeric JSON values are modelled as
    integers (no claim involves floating point).  JSON object keys are assumed
    unique, as they are in every body the script handles.
  * `response.json()` of the Python requests library is modelled by the
    `json : Option Json` field of `HttpResponse`: `some v` when the body
    parses as JSON value `v`, `none` when it does not parse.
  * String rendering of Python values (`str`, `repr`, `json.dumps`) is
    reproduced up to quoting/escaping details and pretty-printer whitespace;
    no claim depends on the rendered text of a container value.
  * A `request` event records an attempted HTTP call together with its
    outcome (a response, a connection error, or another raised exception).
-/

namespace HttpNavTest

/-- JSON values as seen by the script (results of `response.json()`). -/
inductive Json where
  | null : Json
  | bool : Bool → Json
  | num : Int → Json
  | str : String → Json
  | arr : List Json → Json
  | obj : List (String × Json) → Json

/-- Python truthiness of a parsed-JSON value, as used by `if title_data1:`. -/
def pyTruthy : Json → Bool
  | .null => false
  | .bool b => b
  | .num n => n != 0
  | .str s => s != ""
  | .arr xs => !xs.isEmpty
  | .obj fs => !fs.isEmpty

/-- Lookup in a Python dict produced by JSON parsing (keys assumed unique). -/
def dictGet (fields : List (String × Json)) (key : String) : Option Json :=
  (fields.find? fun kv => kv.1 == key).map Prod.snd

/-- Exceptions the script can observe: a requests `ConnectionError`, or any
other exception (carrying its message). -/
inductive PyError where
  | connErr : PyError
  | otherErr : String → PyError

/-- Python `data.get(key, dflt)`: defaulting lookup on a dict; raises
`AttributeError` when `data` is not a dict. -/
def pyGetD (data : Json) (key : String) (dflt : Json) : Except PyError Json :=
  match data with
  | .obj fields => .ok ((dictGet fields key).getD dflt)
  | _ => .error (.otherErr "AttributeError: object has no attribute get")

/-- Python `len` on a parsed-JSON value; raises `TypeError` on values with
no length. -/
def pyLen : Json → Except PyError Nat
  | .str s => .ok s.length
  | .arr xs => .ok xs.length
  | .obj fs => .ok fs.length
  | _ => .error (.otherErr "TypeError: object has no len")

/-- Python slice `x[:n]` on a parsed-JSON value; raises `TypeError` on
unsliceable values. -/
def pySliceTo : Json → Nat → Except PyError Json
  | .str s, n => .ok (.str (s.take n))
  | .arr xs, n => .ok (.arr (xs.take n))
  | _, _ => .error (.otherErr "TypeError: object is not subscriptable")

/-- Single-quote character, used by Python `repr` of strings. -/
def sq : String := String.singleton (Char.ofNat 39)

mutual

/-- Python `repr` of a parsed-JSON value (string escaping abbreviated). -/
def pyRepr : Json → String
  | .null => "None"
  | .bool true => "True"
  | .bool false => "False"
  | .num n => toString n
  | .str s => sq ++ s ++ sq
  | .arr xs => "[" ++ pyReprList xs ++ "]"
  | .obj fs => "\x7b" ++ pyReprFields fs ++ "\x7d"

/-- Comma-separated `repr` of list elements. -/
def pyReprList : List Json → String
  | [] => ""
  | [x] => pyRepr x
  | x :: y :: xs => pyRepr x ++ ", " ++ pyReprList (y :: xs)

/-- Comma-separated `repr` of dict entries. -/
def pyReprFields : List (String × Json) → String
  | [] => ""
  | [(k, v)] => sq ++ k ++ sq ++ ": " ++ pyRepr v
  | (k, v) :: f :: fs => sq ++ k ++ sq ++ ": " ++ pyRepr v ++ ", " ++ pyReprFields (f :: fs)

end

/-- Python `str` of a parsed-JSON value, as interpolated by an f-string. -/
def pyStr : Json → String
  | .str s => s
  | .null => "None"
  | .bool true => "True"
  | .bool false => "False"
  | .num n => toString n
  | .arr xs => "[" ++ pyReprList xs ++ "]"
  | .obj fs => "\x7b" ++ pyReprFields fs ++ "\x7d"

mutual

/-- Rendering of `json.dumps` output (quoting/escaping and the indent-2
pretty-printer whitespace abbreviated; no claim depends on this text). -/
def json_dumps : Json → String
  | .null => "null"
  | .bool true => "true"
  | .bool false => "false"
  | .num n => toString n
  | .str s => "\"" ++ s ++ "\""
  | .arr xs => "[" ++ dumpsList xs ++ "]"
  | .obj fs => "\x7b" ++ dumpsFields fs ++ "\x7d"

/-- Comma-separated `json.dumps` of list elements. -/
def dumpsList : List Json → String
  | [] => ""
  | [x] => json_dumps x
  | x :: y :: xs => json_dumps x ++ ", " ++ dumpsList (y :: xs)

/-- Comma-separated `json.dumps` of object entries. -/
def dumpsFields : List (String × Json) → String
  | [] => ""
  | [(k, v)] => "\"" ++ k ++ "\": " ++ json_dumps v
  | (k, v) :: f :: fs => "\"" ++ k ++ "\": " ++ json_dumps v ++ ", " ++ dumpsFields (f :: fs)

end

/-- HTTP method of a request issued by the script. -/
inductive HttpMethod where
  | post : HttpMethod
  | get : HttpMethod
deriving BEq, DecidableEq

/-- An HTTP request as the script builds it: method, path under the base URL,
and the JSON payload (for POST) or query parameters (for GET). -/
structure Request where
  method : HttpMethod
  path : String
  payload : List (String × Json)

/-- The surface of a `requests` response that the script consumes:
status code, decoded text, raw body bytes, and the result of `.json()`
(`none` when the body does not parse as JSON). -/
structure HttpResponse where
  status_code : Nat
  text : String
  content : List Nat
  json : Option Json

/-- Outcome of one attempted HTTP call: a response, a raised
`requests.exceptions.ConnectionError`, or another raised exception. -/
inductive HttpOutcome where
  | ok : HttpResponse → HttpOutcome
  | connError : HttpOutcome
  | otherError : String → HttpOutcome

/-- The external world: the outcome the server gives to the i-th attempted
HTTP request of the run, and whether the local screenshot-file write
succeeds (`none`) or raises an OSError with a message (`some msg`). -/
structure Env where
  http : Nat → HttpOutcome
  fileWrite : Option String

/-- Observable events of a run, in order. -/
inductive Event where
  | print : String → Event
  | request : Request → HttpOutcome → Event
  | fileWrite : String → List Nat → Event
  | sleep : Nat → Event

/-- Interpreter state: events so far and the number of HTTP requests
attempted so far. -/
structure RunState where
  events : List Event
  reqCount : Nat

def RunState.print (s : RunState) (line : String) : RunState :=
  { s with events := s.events ++ [.print line] }

def RunState.prints (s : RunState) (lines : List String) : RunState :=
  { s with events := s.events ++ lines.map .print }

def RunState.addReq (s : RunState) (r : Request) (out : HttpOutcome) : RunState :=
  { events := s.events ++ [.request r out], reqCount := s.reqCount + 1 }

def RunState.sleep (s : RunState) (n : Nat) : RunState :=
  { s with events := s.events ++ [.sleep n] }

/-- Result of a run prefix: normal continuation, or a raised exception
propagating (the state records the events up to the raise). -/
inductive StepRes where
  | ok : RunState → StepRes
  | err : PyError → RunState → StepRes

/-- The state carried by a step result. -/
def resState : StepRes → RunState
  | .ok s => s
  | .err _ s => s

/-- Sequencing with exception propagation (the body of the `try:` block). -/
def andThen (r : StepRes) (g : RunState → StepRes) : StepRes :=
  match r with
  | .ok s => g s
  | .err e s => .err e s

/-- Attempt one HTTP call: record the request with its outcome; on a response
continue with `k`, on a raised exception propagate it. -/
def issue (env : Env) (req : Request) (s : RunState)
    (k : RunState → HttpResponse → StepRes) : StepRes :=
  match env.http s.reqCount with
  | .ok resp => k (s.addReq req (.ok resp)) resp
  | .connError => .err .connErr (s.addReq req .connError)
  | .otherError m => .err (.otherErr m) (s.addReq req (.otherError m))

def BASE_URL : String := "http://localhost:3000"

/-- `SESSION_ID = f"test-navigate-{int(time.time())}"`, with the start-up
time as parameter. -/
def SESSION_ID (now : Nat) : String := "test-navigate-" ++ toString now

def startReq (sid : String) : Request :=
  ⟨.post, "/api/browser/start", [("sessionId", .str sid), ("headless", .bool true)]⟩

def navigateReq (sid url : String) : Request :=
  ⟨.post, "/api/page/navigate", [("sessionId", .str sid), ("url", .str url)]⟩

def titleReq (sid : String) : Request :=
  ⟨.get, "/api/page/title", [("sessionId", .str sid)]⟩

def urlReq (sid : String) : Request :=
  ⟨.get, "/api/page/url", [("sessionId", .str sid)]⟩

def screenshotReq (sid : String) : Request :=
  ⟨.post, "/api/page/screenshot", [("sessionId", .str sid), ("format", .str "png")]⟩

def htmlReq (sid : String) : Request :=
  ⟨.get, "/api/page/html", [("sessionId", .str sid)]⟩

def executeReq (sid : String) : Request :=
  ⟨.post, "/api/page/execute", [("sessionId", .str sid), ("script", .str "document.location.href")]⟩

def stopReq (sid : String) : Request :=
  ⟨.post, "/api/browser/stop", [("sessionId", .str sid)]⟩

/-- The `'='*60` separator line of `print_step`. -/
def eqLine : String := String.mk (List.replicate 60 (Char.ofNat 61))

/-- Lines printed by `print_step`. -/
def print_step (step_num : Nat) (description : String) : List String :=
  ["\n" ++ eqLine, "📌 步骤 " ++ toString step_num ++ ": " ++ description, eqLine ++ "\n"]

/-- `print_response`: lines printed and the value returned (`some data` when
the body parsed as JSON, `none` otherwise — the bare `except:` turns a parse
failure into raw-text output, not an error). -/
def print_response (title : String) (response : HttpResponse) :
    List String × Option Json :=
  match response.json with
  | some data =>
      (["✅ " ++ title, "状态码: " ++ toString response.status_code,
        "响应数据: " ++ json_dumps data], some data)
  | none =>
      (["✅ " ++ title, "状态码: " ++ toString response.status_code,
        "响应内容: " ++ response.text], none)

/-- The repeated idiom
`if data: print(f"{label}{data.get(key, 'N/A')}")`
after a `print_response` call: skipped when the returned value is `None` or
falsy; `.get` can raise when the value is truthy but not a dict. -/
def fieldPrint (dat : Option Json) (label key : String) (s : RunState) : StepRes :=
  match dat with
  | none => .ok s
  | some data =>
    if pyTruthy data then
      match pyGetD data key (.str "N/A") with
      | .ok v => .ok (s.print (label ++ pyStr v))
      | .error e => .err e s
    else .ok s

/-- Step 1: start the browser. -/
def step1 (sid : String) (env : Env) (s : RunState) : StepRes :=
  issue env (startReq sid)
    ((s.prints (print_step 1 "启动浏览器")).print ("POST " ++ BASE_URL ++ "/api/browser/start"))
    fun s start_response =>
      .ok ((s.prints (print_response "浏览器启动成功" start_response).1).sleep 2)

/-- Step 2: navigate to Baidu. -/
def step2 (sid : String) (env : Env) (s : RunState) : StepRes :=
  issue env (navigateReq sid "https://www.baidu.com")
    ((s.prints (print_step 2 "导航到百度")).print ("POST " ++ BASE_URL ++ "/api/page/navigate"))
    fun s navigate_response1 =>
      .ok ((s.prints (print_response "导航到百度成功" navigate_response1).1).sleep 3)

/-- Step 3: read the page title (first time). -/
def step3 (sid : String) (env : Env) (s : RunState) : StepRes :=
  issue env (titleReq sid)
    ((s.prints (print_step 3 "获取页面标题")).print ("GET " ++ BASE_URL ++ "/api/page/title?sessionId=" ++ sid))
    fun s title_response1 =>
      fieldPrint (print_response "页面标题" title_response1).2 "📄 标题内容: " "title"
        (s.prints (print_response "页面标题" title_response1).1)

/-- Step 4: navigate to GitHub. -/
def step4 (sid : String) (env : Env) (s : RunState) : StepRes :=
  issue env (navigateReq sid "https://github.com")
    ((s.prints (print_step 4 "导航到 GitHub")).print ("POST " ++ BASE_URL ++ "/api/page/navigate"))
    fun s navigate_response2 =>
      .ok ((s.prints (print_response "导航到 GitHub 成功" navigate_response2).1).sleep 3)

/-- Step 5: read the page URL. -/
def step5 (sid : String) (env : Env) (s : RunState) : StepRes :=
  issue env (urlReq sid)
    ((s.prints (print_step 5 "获取页面 URL")).print ("GET " ++ BASE_URL ++ "/api/page/url?sessionId=" ++ sid))
    fun s url_response =>
      fieldPrint (print_response "当前页面 URL" url_response).2 "🔗 URL: " "url"
        (s.prints (print_response "当前页面 URL" url_response).1)

/-- Step 6: read the page title again, after the second navigation. -/
def step6 (sid : String) (env : Env) (s : RunState) : StepRes :=
  issue env (titleReq sid)
    ((s.prints (print_step 6 "获取页面标题")).print ("GET " ++ BASE_URL ++ "/api/page/title?sessionId=" ++ sid))
    fun s title_response2 =>
      fieldPrint (print_response "页面标题" title_response2).2 "📄 标题内容: " "title"
        (s.prints (print_response "页面标题" title_response2).1)

/-- Step 7: screenshot — the response body bytes are written to
`screenshot_<sessionId>.png` inside a `with open(...)` block, so the file is
opened, written and closed before the step ends. -/
def step7 (sid : String) (env : Env) (s : RunState) : StepRes :=
  issue env (screenshotReq sid)
    ((s.prints (print_step 7 "截图")).print ("POST " ++ BASE_URL ++ "/api/page/screenshot"))
    fun s screenshot_response =>
    let s := s.print "✅ 截图成功"
    let s := s.print ("状态码: " ++ toString screenshot_response.status_code)
    let s := s.print ("图片大小: " ++ toString screenshot_response.content.length ++ " 字节")
    match env.fileWrite with
    | some m => .err (.otherErr m) s
    | none =>
      let s : RunState :=
        { s with events := s.events ++ [.fileWrite ("screenshot_" ++ sid ++ ".png") screenshot_response.content] }
      .ok (s.print ("💾 截图已保存到: " ++ ("screenshot_" ++ sid ++ ".png")))

/-- Step 8: read the page HTML; report its length and a 200-character prefix
when the parsed body is truthy. -/
def step8 (sid : String) (env : Env) (s : RunState) : StepRes :=
  issue env (htmlReq sid)
    ((s.prints (print_step 8 "获取页面 HTML")).print ("GET " ++ BASE_URL ++ "/api/page/html?sessionId=" ++ sid))
    fun s html_response =>
    let pr := print_response "页面 HTML" html_response
    let s := s.prints pr.1
    match pr.2 with
    | none => .ok s
    | some data =>
      if pyTruthy data then
        match pyGetD data "html" (.str "") with
        | .error e => .err e s
        | .ok html_content =>
          match pyLen html_content with
          | .error e => .err e s
          | .ok n =>
            let s := s.print ("📄 HTML 大小: " ++ toString n ++ " 字符")
            match pySliceTo html_content 200 with
            | .error e => .err e s
            | .ok pre => .ok (s.print ("📄 HTML 前200字符: " ++ pyStr pre ++ "..."))
      else .ok s

/-- Step 9: execute JavaScript. -/
def step9 (sid : String) (env : Env) (s : RunState) : StepRes :=
  issue env (executeReq sid)
    ((s.prints (print_step 9 "执行 JavaScript")).print ("POST " ++ BASE_URL ++ "/api/page/execute"))
    fun s script_response =>
      fieldPrint (print_response "执行结果" script_response).2 "🔧 结果: " "result"
        (s.prints (print_response "执行结果" script_response).1)

/-- Step 10: stop the browser. -/
def step10 (sid : String) (env : Env) (s : RunState) : StepRes :=
  issue env (stopReq sid)
    ((s.prints (print_step 10 "停止浏览器")).print ("POST " ++ BASE_URL ++ "/api/browser/stop"))
    fun s stop_response =>
      .ok (s.prints (print_response "浏览器已停止" stop_response).1)

/-- The body of the `try:` block: steps 1..10 in order, any raised exception
propagating to the handlers. -/
def mainBody (sid : String) (env : Env) (s : RunState) : StepRes :=
  andThen (step1 sid env s) fun s =>
  andThen (step2 sid env s) fun s =>
  andThen (step3 sid env s) fun s =>
  andThen (step4 sid env s) fun s =>
  andThen (step5 sid env s) fun s =>
  andThen (step6 sid env s) fun s =>
  andThen (step7 sid env s) fun s =>
  andThen (step8 sid env s) fun s =>
  andThen (step9 sid env s) fun s =>
  step10 sid env s

/-- The opening banner printed before the `try:` block. -/
def openBanner : List String :=
  ["╔" ++ String.mk (List.replicate 58 (Char.ofNat 0x2550)) ++ "╗",
   "║              HTTP API 导航测试示例 (Python)               ║",
   "╚" ++ String.mk (List.replicate 58 (Char.ofNat 0x2550)) ++ "╝"]

/-- The closing banner printed when all ten steps completed. -/
def doneBanner : List String :=
  ["\n╔" ++ String.mk (List.replicate 58 (Char.ofNat 0x2550)) ++ "╗",
   "║                  测试完成 ✅                            ║",
   "╚" ++ String.mk (List.replicate 58 (Char.ofNat 0x2550)) ++ "╝\n"]

/-- State at entry of the `try:` block. -/
def initState : RunState := { events := openBanner.map .print, reqCount := 0 }

/-- How a run of `test_navigate_api` ended: all handlers return normally, so
every run ends in one of these handled outcomes — there is no unhandled
fault. -/
inductive Outcome where
  | completed : Outcome
  | handledConnectionError : Outcome
  | handledException : String → Outcome

/-- Result of one run: the full event trace and the (always handled) ending. -/
structure RunResult where
  events : List Event
  outcome : Outcome

/-- The whole script run, parameterized by the start-up time `t` (which fixes
`SESSION_ID`) and the environment.  The two `except` clauses: a
`ConnectionError` prints a remediation hint and makes no cleanup attempt;
any other exception logs the failure and makes exactly one best-effort
`stop` attempt whose own outcome is swallowed by the inner
`try: ... except: pass`. -/
def test_navigate_api (t : Nat) (env : Env) : RunResult :=
  match mainBody (SESSION_ID t) env initState with
  | .ok s =>
      { events := s.events ++ doneBanner.map .print, outcome := .completed }
  | .err .connErr s =>
      { events := s.events ++ [.print "\n❌ 错误: 无法连接到服务器",
                               .print "请确保 HTTP 服务器正在运行: npm run server"],
        outcome := .handledConnectionError }
  | .err (.otherErr m) s =>
      { events := s.events ++ [.print ("\n❌ 测试失败: " ++ m),
                               .request (stopReq (SESSION_ID t)) (env.http s.reqCount)],
        outcome := .handledException m }

/-- The requests attempted during a trace, in order. -/
def eventReq : Event → Option Request
  | .request r _ => some r
  | _ => none

/-- List of attempted requests of an event trace. -/
def reqs (evts : List Event) : List Request := evts.filterMap eventReq

/-- The fixed request sequence of a fault-free run. -/
def canonicalReqs (sid : String) : List Request :=
  [startReq sid,
   navigateReq sid "https://www.baidu.com",
   titleReq sid,
   navigateReq sid "https://github.com",
   urlReq sid,
   titleReq sid,
   screenshotReq sid,
   htmlReq sid,
   executeReq sid,
   stopReq sid]

/-- Number of requests with a given method and path. -/
def countPath (l : List Request) (m : HttpMethod) (p : String) : Nat :=
  (l.filter fun r => r.method == m && r.path == p).length

/-- A simple successful response whose body is not JSON. -/
def okResp : HttpResponse := { status_code := 200, text := "ok", content := [], json := none }

/-- A server that answers every request with `okResp`; the file write
succeeds. -/
def envOk : Env := { http := fun _ => .ok okResp, fileWrite := none }

/-- A server that accepts the first request and raises a non-connection
exception on the second. -/
def envFail : Env :=
  { http := fun i => if i = 0 then .ok okResp else .otherError "boom", fileWrite := none }

/-- An unreachable server: every request raises `ConnectionError`. -/
def envConn : Env := { http := fun _ => .connError, fileWrite := none }

/-- A server whose every response has HTTP status 500 and a JSON body `{}`
missing every expected field. -/
def envC6 : Env :=
  { http := fun _ => .ok { status_code := 500, text := "", content := [], json := some (.obj []) },
    fileWrite := none }

/-- A server answering every request with an arbitrary status code `c i` and
a JSON body `{}` missing every expected field. -/
def statusEnv (c : Nat → Nat) : Env :=
  { http := fun i => .ok { status_code := c i, text := "", content := [], json := some (.obj []) },
    fileWrite := none }

/-- A response whose body is the JSON object `{"title": "Example"}`. -/
def respTitle : HttpResponse :=
  { status_code := 200, text := "", content := [],
    json := some (.obj [("title", .str "Example")]) }

/-- A server that answers every request with `respTitle`. -/
def envTitle : Env := { http := fun _ => .ok respTitle, fileWrite := none }

/-- A response whose body parses to the falsy JSON value `{}`. -/
def respEmpty : HttpResponse :=
  { status_code := 200, text := "", content := [], json := some (.obj []) }

/-- A server that answers every request with `respEmpty`. -/
def envEmpty : Env := { http := fun _ => .ok respEmpty, fileWrite := none }

/-- A response carrying three body bytes (for the screenshot step). -/
def respShot : HttpResponse :=
  { status_code := 200, text := "", content := [7, 8, 9], json := none }

/-- A server that answers every request with `respShot`. -/
def envShot : Env := { http := fun _ => .ok respShot, fileWrite := none }

/-- An empty starting state for step-level witnesses. -/
def emptyState : RunState := { events := [], reqCount := 0 }

/-- The state step 7 reaches from `emptyState` against `envShot`. -/
def shotState : RunState := resState (step7 "s" envShot emptyState)

example : (test_navigate_api 0 envOk).outcome = .completed := rfl

example : reqs (test_navigate_api 0 envOk).events = canonicalReqs (SESSION_ID 0) := rfl

example : (test_navigate_api 0 envFail).outcome = .handledException "boom" := rfl

example : (test_navigate_api 0 envConn).outcome = .handledConnectionError := rfl

example : (test_navigate_api 0 envC6).outcome = .completed := rfl

example (t : Nat) (c : Nat → Nat) :
    (test_navigate_api t (statusEnv c)).outcome = .completed := rfl

@[simp] lemma print_events (s : RunState) (l : String) :
    (RunState.print s l).events = s.events ++ [.print l] := rfl

@[simp] lemma print_reqCount (s : RunState) (l : String) :
    (RunState.print s l).reqCount = s.reqCount := rfl

@[simp] lemma prints_events (s : RunState) (ls : List String) :
    (RunState.prints s ls).events = s.events ++ ls.map .print := rfl

@[simp] lemma prints_reqCount (s : RunState) (ls : List String) :
    (RunState.prints s ls).reqCount = s.reqCount := rfl

@[simp] lemma addReq_events (s : RunState) (r : Request) (o : HttpOutcome) :
    (RunState.addReq s r o).events = s.events ++ [.request r o] := rfl

@[simp] lemma addReq_reqCount (s : RunState) (r : Request) (o : HttpOutcome) :
    (RunState.addReq s r o).reqCount = s.reqCount + 1 := rfl

@[simp] lemma sleep_events (s : RunState) (n : Nat) :
    (RunState.sleep s n).events = s.events ++ [.sleep n] := rfl

@[simp] lemma sleep_reqCount (s : RunState) (n : Nat) :
    (RunState.sleep s n).reqCount = s.reqCount := rfl

@[simp] lemma resState_ok (s : RunState) : resState (.ok s) = s := rfl

@[simp] lemma resState_err (e : PyError) (s : RunState) : resState (.err e s) = s := rfl

@[simp] lemma reqs_nil : reqs [] = [] := rfl

@[simp] lemma reqs_print_cons (l : String) (es : List Event) :
    reqs (.print l :: es) = reqs es := by
  simp [reqs, List.filterMap_cons, eventReq]

@[simp] lemma reqs_request_cons (r : Request) (o : HttpOutcome) (es : List Event) :
    reqs (.request r o :: es) = r :: reqs es := by
  simp [reqs, List.filterMap_cons, eventReq]

@[simp] lemma reqs_fileWrite_cons (p : String) (c : List Nat) (es : List Event) :
    reqs (.fileWrite p c :: es) = reqs es := by
  simp [reqs, List.filterMap_cons, eventReq]

@[simp] lemma reqs_sleep_cons (n : Nat) (es : List Event) :
    reqs (.sleep n :: es) = reqs es := by
  simp [reqs, List.filterMap_cons, eventReq]

@[simp] lemma reqs_append (a b : List Event) : reqs (a ++ b) = reqs a ++ reqs b := by
  simp [reqs, List.filterMap_append]

@[simp] lemma reqs_map_print (ls : List String) : reqs (ls.map .print) = [] := by
  induction ls with
  | nil => rfl
  | cons x xs ih => simp [ih]

/-- A continuation that only appends non-request events to the trace. -/
def PrintOnlyK (k : RunState → HttpResponse → StepRes) : Prop :=
  ∀ s resp, ∃ tail, (resState (k s resp)).events = s.events ++ tail ∧ reqs tail = []

/-- An attempted HTTP call followed by a request-free continuation appends
exactly one request to the trace, in every case (response or raised
exception). -/
lemma issue_tail (env : Env) (req : Request) (s : RunState)
    (k : RunState → HttpResponse → StepRes) (hk : PrintOnlyK k) :
    ∃ tail, (resState (issue env req s k)).events = s.events ++ tail ∧
      reqs tail = [req] := by
  unfold issue
  cases h : env.http s.reqCount with
  | ok resp =>
      obtain ⟨t, ht, hr⟩ := hk (s.addReq req (.ok resp)) resp
      exact ⟨.request req (.ok resp) :: t, by simpa using ht, by simp [hr]⟩
  | connError =>
      exact ⟨[.request req .connError], by simp, by simp⟩
  | otherError m =>
      exact ⟨[.request req (.otherError m)], by simp, by simp⟩

/-- `fieldPrint` never issues a request; it appends at most one print. -/
lemma fieldPrint_tail (dat : Option Json) (label key : String) (s : RunState) :
    ∃ tail, (resState (fieldPrint dat label key s)).events = s.events ++ tail ∧
      reqs tail = [] := by
  cases dat with
  | none => exact ⟨[], by simp [fieldPrint], rfl⟩
  | some data =>
      by_cases hT : pyTruthy data
      · cases hG : pyGetD data key (.str "N/A") with
        | ok v => exact ⟨[.print (label ++ pyStr v)], by simp [fieldPrint, hT, hG], by simp⟩
        | error e => exact ⟨[], by simp [fieldPrint, hT, hG], rfl⟩
      · exact ⟨[], by simp [fieldPrint, hT], rfl⟩

/-- Common shape of every step: some prints, then one attempted request,
then a request-free continuation. -/
lemma step_shape (env : Env) (req : Request) (A : List String) (b : String)
    (k : RunState → HttpResponse → StepRes) (hk : PrintOnlyK k) (s : RunState) :
    ∃ tail, (resState (issue env req ((s.prints A).print b) k)).events = s.events ++ tail ∧
      reqs tail = [req] := by
  obtain ⟨t, ht, hr⟩ := issue_tail env req ((s.prints A).print b) k hk
  refine ⟨A.map .print ++ ([.print b] ++ t), ?_, ?_⟩
  · simpa [List.append_assoc] using ht
  · simp [hr]

lemma step1_tail (sid : String) (env : Env) (s : RunState) :
    ∃ tail, (resState (step1 sid env s)).events = s.events ++ tail ∧
      reqs tail = [startReq sid] := by
  unfold step1
  exact step_shape env (startReq sid) (print_step 1 "启动浏览器")
    ("POST " ++ BASE_URL ++ "/api/browser/start") _
    (fun s resp =>
      ⟨(print_response "浏览器启动成功" resp).1.map .print ++ [.sleep 2], by simp, by simp⟩) s

lemma step2_tail (sid : String) (env : Env) (s : RunState) :
    ∃ tail, (resState (step2 sid env s)).events = s.events ++ tail ∧
      reqs tail = [navigateReq sid "https://www.baidu.com"] := by
  unfold step2
  exact step_shape env (navigateReq sid "https://www.baidu.com") (print_step 2 "导航到百度")
    ("POST " ++ BASE_URL ++ "/api/page/navigate") _
    (fun s resp =>
      ⟨(print_response "导航到百度成功" resp).1.map .print ++ [.sleep 3], by simp, by simp⟩) s

lemma step3_tail (sid : String) (env : Env) (s : RunState) :
    ∃ tail, (resState (step3 sid env s)).events = s.events ++ tail ∧
      reqs tail = [titleReq sid] := by
  unfold step3
  exact step_shape env (titleReq sid) (print_step 3 "获取页面标题")
    ("GET " ++ BASE_URL ++ "/api/page/title?sessionId=" ++ sid) _
    (fun s resp => by
      obtain ⟨t, ht, hr⟩ := fieldPrint_tail (print_response "页面标题" resp).2
        "📄 标题内容: " "title" (s.prints (print_response "页面标题" resp).1)
      exact ⟨(print_response "页面标题" resp).1.map .print ++ t,
        by simpa [List.append_assoc] using ht, by simp [hr]⟩) s

lemma step4_tail (sid : String) (env : Env) (s : RunState) :
    ∃ tail, (resState (step4 sid env s)).events = s.events ++ tail ∧
      reqs tail = [navigateReq sid "https://github.com"] := by
  unfold step4
  exact step_shape env (navigateReq sid "https://github.com") (print_step 4 "导航到 GitHub")
    ("POST " ++ BASE_URL ++ "/api/page/navigate") _
    (fun s resp =>
      ⟨(print_response "导航到 GitHub 成功" resp).1.map .print ++ [.sleep 3], by simp, by simp⟩) s

lemma step5_tail (sid : String) (env : Env) (s : RunState) :
    ∃ tail, (resState (step5 sid env s)).events = s.events ++ tail ∧
      reqs tail = [urlReq sid] := by
  unfold step5
  exact step_shape env (urlReq sid) (print_step 5 "获取页面 URL")
    ("GET " ++ BASE_URL ++ "/api/page/url?sessionId=" ++ sid) _
    (fun s resp => by
      obtain ⟨t, ht, hr⟩ := fieldPrint_tail (print_response "当前页面 URL" resp).2
        "🔗 URL: " "url" (s.prints (print_response "当前页面 URL" resp).1)
      exact ⟨(print_response "当前页面 URL" resp).1.map .print ++ t,
        by simpa [List.append_assoc] using ht, by simp [hr]⟩) s

lemma step6_tail (sid : String) (env : Env) (s : RunState) :
    ∃ tail, (resState (step6 sid env s)).events = s.events ++ tail ∧
      reqs tail = [titleReq sid] := by
  unfold step6
  exact step_shape env (titleReq sid) (print_step 6 "获取页面标题")
    ("GET " ++ BASE_URL ++ "/api/page/title?sessionId=" ++ sid) _
    (fun s resp => by
      obtain ⟨t, ht, hr⟩ := fieldPrint_tail (print_response "页面标题" resp).2
        "📄 标题内容: " "title" (s.prints (print_response "页面标题" resp).1)
      exact ⟨(print_response "页面标题" resp).1.map .print ++ t,
        by simpa [List.append_assoc] using ht, by simp [hr]⟩) s

lemma step7_tail (sid : String) (env : Env) (s : RunState) :
    ∃ tail, (resState (step7 sid env s)).events = s.events ++ tail ∧
      reqs tail = [screenshotReq sid] := by
  unfold step7
  exact step_shape env (screenshotReq sid) (print_step 7 "截图")
    ("POST " ++ BASE_URL ++ "/api/page/screenshot") _
    (fun s resp => by
      cases hF : env.fileWrite with
      | some m =>
          exact ⟨[.print "✅ 截图成功", .print ("状态码: " ++ toString resp.status_code),
                  .print ("图片大小: " ++ toString resp.content.length ++ " 字节")],
            by simp [hF], by simp⟩
      | none =>
          exact ⟨[.print "✅ 截图成功", .print ("状态码: " ++ toString resp.status_code),
                  .print ("图片大小: " ++ toString resp.content.length ++ " 字节"),
                  .fileWrite ("screenshot_" ++ sid ++ ".png") resp.content,
                  .print ("💾 截图已保存到: " ++ ("screenshot_" ++ sid ++ ".png"))],
            by simp [hF], by simp⟩) s

lemma step8_tail (sid : String) (env : Env) (s : RunState) :
    ∃ tail, (resState (step8 sid env s)).events = s.events ++ tail ∧
      reqs tail = [htmlReq sid] := by
  unfold step8
  exact step_shape env (htmlReq sid) (print_step 8 "获取页面 HTML")
    ("GET " ++ BASE_URL ++ "/api/page/html?sessionId=" ++ sid) _
    (fun s resp => by
      cases hJ : (print_response "页面 HTML" resp).2 with
      | none => exact ⟨(print_response "页面 HTML" resp).1.map .print, by simp [hJ], by simp⟩
      | some data =>
          by_cases hT : pyTruthy data
          · cases hG : pyGetD data "html" (.str "") with
            | error e =>
                exact ⟨(print_response "页面 HTML" resp).1.map .print,
                  by simp [hJ, hT, hG], by simp⟩
            | ok html_content =>
                cases hL : pyLen html_content with
                | error e =>
                    exact ⟨(print_response "页面 HTML" resp).1.map .print,
                      by simp [hJ, hT, hG, hL], by simp⟩
                | ok n =>
                    cases hS : pySliceTo html_content 200 with
                    | error e =>
                        exact ⟨(print_response "页面 HTML" resp).1.map .print ++
                            [.print ("📄 HTML 大小: " ++ toString n ++ " 字符")],
                          by simp [hJ, hT, hG, hL, hS], by simp⟩
                    | ok pre =>
                        exact ⟨(print_response "页面 HTML" resp).1.map .print ++
                            [.print ("📄 HTML 大小: " ++ toString n ++ " 字符"),
                             .print ("📄 HTML 前200字符: " ++ pyStr pre ++ "...")],
                          by simp [hJ, hT, hG, hL, hS], by simp⟩
          · exact ⟨(print_response "页面 HTML" resp).1.map .print,
              by simp [hJ, hT], by simp⟩) s

lemma step9_tail (sid : String) (env : Env) (s : RunState) :
    ∃ tail, (resState (step9 sid env s)).events = s.events ++ tail ∧
      reqs tail = [executeReq sid] := by
  unfold step9
  exact step_shape env (executeReq sid) (print_step 9 "执行 JavaScript")
    ("POST " ++ BASE_URL ++ "/api/page/execute") _
    (fun s resp => by
      obtain ⟨t, ht, hr⟩ := fieldPrint_tail (print_response "执行结果" resp).2
        "🔧 结果: " "result" (s.prints (print_response "执行结果" resp).1)
      exact ⟨(print_response "执行结果" resp).1.map .print ++ t,
        by simpa [List.append_assoc] using ht, by simp [hr]⟩) s

lemma step10_tail (sid : String) (env : Env) (s : RunState) :
    ∃ tail, (resState (step10 sid env s)).events = s.events ++ tail ∧
      reqs tail = [stopReq sid] := by
  unfold step10
  exact step_shape env (stopReq sid) (print_step 10 "停止浏览器")
    ("POST " ++ BASE_URL ++ "/api/browser/stop") _
    (fun s resp =>
      ⟨(print_response "浏览器已停止" resp).1.map .print, by simp, by simp⟩) s

/-- Decompose a successful sequencing. -/
lemma andThen_ok {r : StepRes} {g : RunState → StepRes} {s' : RunState}
    (h : andThen r g = .ok s') : ∃ s₁, r = .ok s₁ ∧ g s₁ = .ok s' := by
  cases r with
  | ok s₁ => exact ⟨s₁, rfl, h⟩
  | err e s₁ => simp [andThen] at h

/-- On a successful run of the `try:` body, the attempted requests are
exactly the canonical ten, in order. -/
lemma mainBody_ok_reqs {sid : String} {env : Env} {s s' : RunState}
    (h : mainBody sid env s = .ok s') :
    reqs s'.events = reqs s.events ++ canonicalReqs sid := by
  unfold mainBody at h
  obtain ⟨s1, h1, h⟩ := andThen_ok h
  obtain ⟨s2, h2, h⟩ := andThen_ok h
  obtain ⟨s3, h3, h⟩ := andThen_ok h
  obtain ⟨s4, h4, h⟩ := andThen_ok h
  obtain ⟨s5, h5, h⟩ := andThen_ok h
  obtain ⟨s6, h6, h⟩ := andThen_ok h
  obtain ⟨s7, h7, h⟩ := andThen_ok h
  obtain ⟨s8, h8, h⟩ := andThen_ok h
  obtain ⟨s9, h9, h10⟩ := andThen_ok h
  obtain ⟨t1, e1, r1⟩ := step1_tail sid env s
  obtain ⟨t2, e2, r2⟩ := step2_tail sid env s1
  obtain ⟨t3, e3, r3⟩ := step3_tail sid env s2
  obtain ⟨t4, e4, r4⟩ := step4_tail sid env s3
  obtain ⟨t5, e5, r5⟩ := step5_tail sid env s4
  obtain ⟨t6, e6, r6⟩ := step6_tail sid env s5
  obtain ⟨t7, e7, r7⟩ := step7_tail sid env s6
  obtain ⟨t8, e8, r8⟩ := step8_tail sid env s7
  obtain ⟨t9, e9, r9⟩ := step9_tail sid env s8
  obtain ⟨t10, e10, r10⟩ := step10_tail sid env s9
  rw [h1] at e1; rw [h2] at e2; rw [h3] at e3; rw [h4] at e4; rw [h5] at e5
  rw [h6] at e6; rw [h7] at e7; rw [h8] at e8; rw [h9] at e9; rw [h10] at e10
  simp only [resState_ok] at e1 e2 e3 e4 e5 e6 e7 e8 e9 e10
  rw [e10, e9, e8, e7, e6, e5, e4, e3, e2, e1]
  simp [r1, r2, r3, r4, r5, r6, r7, r8, r9, r10, canonicalReqs]

/-- All requests the given run prefix can append are drawn from `A`. -/
def Within (A : List Request) (f : RunState → StepRes) : Prop :=
  ∀ s, ∃ tail, (resState (f s)).events = s.events ++ tail ∧
    ∀ r ∈ reqs tail, r ∈ A

lemma within_of_tail {A : List Request} {rq : Request} {f : RunState → StepRes}
    (h : ∀ s, ∃ tail, (resState (f s)).events = s.events ++ tail ∧ reqs tail = [rq])
    (hA : rq ∈ A) : Within A f := by
  intro s
  obtain ⟨t, ht, hr⟩ := h s
  refine ⟨t, ht, ?_⟩
  intro r hrm
  rw [hr] at hrm
  simp at hrm
  exact hrm ▸ hA

lemma andThen_within {A : List Request} {f : RunState → StepRes}
    {g : RunState → StepRes} (hf : Within A f) (hg : Within A g) :
    Within A (fun s => andThen (f s) g) := by
  intro s
  obtain ⟨t₁, e₁, m₁⟩ := hf s
  cases hfs : f s with
  | ok s₁ =>
      rw [hfs] at e₁; simp only [resState_ok] at e₁
      obtain ⟨t₂, e₂, m₂⟩ := hg s₁
      refine ⟨t₁ ++ t₂, ?_, ?_⟩
      · simp [andThen, hfs, e₂, e₁, List.append_assoc]
      · intro r hr
        rcases List.mem_append.1 (by simpa [reqs_append] using hr) with h | h
        · exact m₁ r h
        · exact m₂ r h
  | err e s₁ =>
      rw [hfs] at e₁; simp only [resState_err] at e₁
      exact ⟨t₁, by simp [andThen, hfs, e₁], m₁⟩

/-- Every request the `try:` body can attempt is one of the canonical ten. -/
lemma mainBody_within (sid : String) (env : Env) :
    Within (canonicalReqs sid) (mainBody sid env) := by
  unfold mainBody
  refine andThen_within (within_of_tail (step1_tail sid env) (by simp [canonicalReqs])) ?_
  refine andThen_within (within_of_tail (step2_tail sid env) (by simp [canonicalReqs])) ?_
  refine andThen_within (within_of_tail (step3_tail sid env) (by simp [canonicalReqs])) ?_
  refine andThen_within (within_of_tail (step4_tail sid env) (by simp [canonicalReqs])) ?_
  refine andThen_within (within_of_tail (step5_tail sid env) (by simp [canonicalReqs])) ?_
  refine andThen_within (within_of_tail (step6_tail sid env) (by simp [canonicalReqs])) ?_
  refine andThen_within (within_of_tail (step7_tail sid env) (by simp [canonicalReqs])) ?_
  refine andThen_within (within_of_tail (step8_tail sid env) (by simp [canonicalReqs])) ?_
  refine andThen_within (within_of_tail (step9_tail sid env) (by simp [canonicalReqs])) ?_
  exact within_of_tail (step10_tail sid env) (by simp [canonicalReqs])

/-- A run reports `completed` exactly when the whole `try:` body succeeded;
the trace is then the body trace plus the closing banner. -/
lemma main_success_reqs (t : Nat) (env : Env)
    (h : (test_navigate_api t env).outcome = .completed) :
    reqs (test_navigate_api t env).events = canonicalReqs (SESSION_ID t) := by
  unfold test_navigate_api at h ⊢
  cases hmb : mainBody (SESSION_ID t) env initState with
  | ok s' =>
      have hr := mainBody_ok_reqs hmb
      simp [hr, initState]
  | err e s' =>
      rw [hmb] at h
      cases e <;> simp at h

/-- C1: in every run in which no exception is raised (the run completes),
the attempted requests are exactly the canonical ten in order; in
particular there is exactly one POST /api/browser/start, exactly two POST
/api/page/navigate (to the two different URLs shown at positions 1 and 3),
exactly one POST /api/browser/stop, in that order, and a GET
/api/page/title (a read of the page title) sits between the two navigate
requests (position 2). -/
theorem success_request_sequence (t : Nat) (env : Env)
    (h : (test_navigate_api t env).outcome = .completed) :
    reqs (test_navigate_api t env).events = canonicalReqs (SESSION_ID t) ∧
    (reqs (test_navigate_api t env).events).map (fun r => (r.method, r.path)) =
      [(.post, "/api/browser/start"), (.post, "/api/page/navigate"),
       (.get, "/api/page/title"), (.post, "/api/page/navigate"),
       (.get, "/api/page/url"), (.get, "/api/page/title"),
       (.post, "/api/page/screenshot"), (.get, "/api/page/html"),
       (.post, "/api/page/execute"), (.post, "/api/browser/stop")] ∧
    countPath (reqs (test_navigate_api t env).events) .post "/api/browser/start" = 1 ∧
    countPath (reqs (test_navigate_api t env).events) .post "/api/page/navigate" = 2 ∧
    countPath (reqs (test_navigate_api t env).events) .post "/api/browser/stop" = 1 ∧
    (reqs (test_navigate_api t env).events)[1]? =
      some (navigateReq (SESSION_ID t) "https://www.baidu.com") ∧
    (reqs (test_navigate_api t env).events)[3]? =
      some (navigateReq (SESSION_ID t) "https://github.com") ∧
    ("https://www.baidu.com" : String) ≠ "https://github.com" := by
  have hc := main_success_reqs t env h
  rw [hc]
  exact ⟨rfl, rfl, rfl, rfl, rfl, rfl, rfl, by decide⟩

/-- Witness for `success_request_sequence` against a reachable server. -/
theorem success_request_sequence_witness :
    (test_navigate_api 0 envOk).outcome = .completed ∧
    reqs (test_navigate_api 0 envOk).events = canonicalReqs (SESSION_ID 0) :=
  ⟨rfl, (success_request_sequence 0 envOk rfl).1⟩

/-- C9: in every run in which no exception is raised, exactly two GET
/api/page/title requests are issued: one between the two navigate requests
(position 2, between positions 1 and 3) and one after the second navigate
request (position 5). -/
theorem title_read_after_each_navigate (t : Nat) (env : Env)
    (h : (test_navigate_api t env).outcome = .completed) :
    countPath (reqs (test_navigate_api t env).events) .get "/api/page/title" = 2 ∧
    (reqs (test_navigate_api t env).events)[1]? =
      some (navigateReq (SESSION_ID t) "https://www.baidu.com") ∧
    (reqs (test_navigate_api t env).events)[2]? = some (titleReq (SESSION_ID t)) ∧
    (reqs (test_navigate_api t env).events)[3]? =
      some (navigateReq (SESSION_ID t) "https://github.com") ∧
    (reqs (test_navigate_api t env).events)[5]? = some (titleReq (SESSION_ID t)) ∧
    (reqs (test_navigate_api t env).events).length = 10 := by
  have hc := main_success_reqs t env h
  rw [hc]
  exact ⟨rfl, rfl, rfl, rfl, rfl, rfl⟩

/-- Witness for `title_read_after_each_navigate` against a reachable
server. -/
theorem title_read_after_each_navigate_witness :
    (test_navigate_api 0 envOk).outcome = .completed ∧
    countPath (reqs (test_navigate_api 0 envOk).events) .get "/api/page/title" = 2 :=
  ⟨rfl, (title_read_after_each_navigate 0 envOk rfl).1⟩

/-- C2: every request attempted during a run — whatever the environment
does, including the best-effort cleanup stop — carries the session
identifier generated at start-up from the start time `t`. -/
theorem session_id_constant (t : Nat) (env : Env) :
    ∀ r ∈ reqs (test_navigate_api t env).events,
      dictGet r.payload "sessionId" = some (.str (SESSION_ID t)) := by
  have hcanon : ∀ r ∈ canonicalReqs (SESSION_ID t),
      dictGet r.payload "sessionId" = some (.str (SESSION_ID t)) := by
    intro r hr
    simp [canonicalReqs] at hr
    rcases hr with rfl | rfl | rfl | rfl | rfl | rfl | rfl | rfl | rfl | rfl <;> rfl
  obtain ⟨tail, he, hm⟩ := mainBody_within (SESSION_ID t) env initState
  intro r hr
  unfold test_navigate_api at hr
  cases hmb : mainBody (SESSION_ID t) env initState with
  | ok s' =>
      rw [hmb] at hr he
      simp only [resState_ok] at he
      simp [he, initState] at hr
      exact hcanon r (hm r hr)
  | err e s' =>
      rw [hmb] at hr he
      simp only [resState_err] at he
      cases e with
      | connErr =>
          simp [he, initState] at hr
          exact hcanon r (hm r hr)
      | otherErr m =>
          simp [he, initState] at hr
          rcases hr with hr | rfl
          · exact hcanon r (hm r hr)
          · rfl

/-- Witness for `session_id_constant` at the first request of a concrete
run. -/
theorem session_id_constant_witness :
    dictGet (startReq (SESSION_ID 0)).payload "sessionId" =
      some (.str (SESSION_ID 0)) :=
  session_id_constant 0 envOk (startReq (SESSION_ID 0))
    (by rw [show reqs (test_navigate_api 0 envOk).events = canonicalReqs (SESSION_ID 0) from rfl]
        simp [canonicalReqs])

/-- C6 counterexample: against a server whose every response has HTTP
status 500 and a JSON body `{}` missing every expected field, the run is
not aborted: it completes, issues all ten canonical requests, and makes
exactly one stop call (the scripted one — no cleanup stop). This refutes
the claim that an HTTP error status or a missing expected field is a
terminal runtime fault. -/
theorem error_status_not_terminal_counterexample :
    (test_navigate_api 0 envC6).outcome = .completed ∧
    reqs (test_navigate_api 0 envC6).events = canonicalReqs (SESSION_ID 0) ∧
    countPath (reqs (test_navigate_api 0 envC6).events) .post "/api/browser/stop" = 1 :=
  ⟨rfl, rfl, rfl⟩

/-- C6 amended: a response with an HTTP error status, or a JSON body
missing an expected field, is not a fault at all: for every start time and
every assignment of status codes, a server answering each request with
that status and body `{}` yields a completed run with the full canonical
request sequence (the status is merely printed; missing fields are
defaulted or their printout skipped; no cleanup stop is attempted). -/
theorem error_status_and_missing_fields_continue (t : Nat) (c : Nat → Nat) :
    (test_navigate_api t (statusEnv c)).outcome = .completed ∧
    reqs (test_navigate_api t (statusEnv c)).events = canonicalReqs (SESSION_ID t) :=
  ⟨rfl, main_success_reqs t (statusEnv c) rfl⟩

/-- C3: whenever a step raises a non-connection exception (the run ends in
the generic exception handler), the remaining sequence is abandoned: the
trace is the aborted-body trace followed only by the failure log line and
exactly one additional POST /api/browser/stop attempt, whose own outcome
`env.http s.reqCount` is arbitrary — any exception it raises is suppressed
and the run still ends in the handled outcome `handledException`. -/
theorem exception_one_cleanup_stop (t : Nat) (env : Env) (m : String)
    (h : (test_navigate_api t env).outcome = .handledException m) :
    ∃ s, mainBody (SESSION_ID t) env initState = .err (.otherErr m) s ∧
      (test_navigate_api t env).events =
        s.events ++ [.print ("\n❌ 测试失败: " ++ m),
                     .request (stopReq (SESSION_ID t)) (env.http s.reqCount)] ∧
      reqs (test_navigate_api t env).events =
        reqs s.events ++ [stopReq (SESSION_ID t)] := by
  unfold test_navigate_api at h ⊢
  cases hmb : mainBody (SESSION_ID t) env initState with
  | ok s' => rw [hmb] at h; simp at h
  | err e s' =>
      rw [hmb] at h
      cases e with
      | connErr => simp at h
      | otherErr m' =>
          simp at h
          subst h
          exact ⟨s', rfl, by simp, by simp⟩

/-- Witness for `exception_one_cleanup_stop`: a server that accepts the
start request and raises on the second. -/
theorem exception_one_cleanup_stop_witness :
    (test_navigate_api 0 envFail).outcome = .handledException "boom" ∧
    ∃ s, mainBody (SESSION_ID 0) envFail initState = .err (.otherErr "boom") s ∧
      (test_navigate_api 0 envFail).events =
        s.events ++ [.print ("\n❌ 测试失败: " ++ "boom"),
                     .request (stopReq (SESSION_ID 0)) (envFail.http s.reqCount)] ∧
      reqs (test_navigate_api 0 envFail).events =
        reqs s.events ++ [stopReq (SESSION_ID 0)] :=
  ⟨rfl, exception_one_cleanup_stop 0 envFail "boom" rfl⟩

/-- C4: if the server is unreachable (every request attempt raises a
connection error), the run ends in the handled connection-error outcome
(no unhandled fault), the trace ends with the two remediation lines
telling the user how to start the server, and no POST /api/browser/stop
request is ever attempted. -/
theorem unreachable_server_no_cleanup (t : Nat) (env : Env)
    (h : ∀ i, env.http i = .connError) :
    (test_navigate_api t env).outcome = .handledConnectionError ∧
    countPath (reqs (test_navigate_api t env).events) .post "/api/browser/stop" = 0 ∧
    (test_navigate_api t env).events =
      openBanner.map .print ++
      ((print_step 1 "启动浏览器").map .print ++
        [.print ("POST " ++ BASE_URL ++ "/api/browser/start"),
         .request (startReq (SESSION_ID t)) .connError,
         .print "\n❌ 错误: 无法连接到服务器",
         .print "请确保 HTTP 服务器正在运行: npm run server"]) := by
  have hmb : mainBody (SESSION_ID t) env initState =
      .err .connErr
        { events := openBanner.map Event.print ++
            ((print_step 1 "启动浏览器").map Event.print ++
              [Event.print ("POST " ++ BASE_URL ++ "/api/browser/start"),
               Event.request (startReq (SESSION_ID t)) .connError]),
          reqCount := 1 } := by
    unfold mainBody step1 issue
    rw [h]
    simp [andThen, initState, RunState.addReq]
  unfold test_navigate_api
  rw [hmb]
  exact ⟨rfl, rfl, rfl⟩

/-- Witness for `unreachable_server_no_cleanup`. -/
theorem unreachable_server_no_cleanup_witness :
    (test_navigate_api 0 envConn).outcome = .handledConnectionError ∧
    countPath (reqs (test_navigate_api 0 envConn).events) .post "/api/browser/stop" = 0 :=
  ⟨(unreachable_server_no_cleanup 0 envConn fun _ => rfl).1,
   (unreachable_server_no_cleanup 0 envConn fun _ => rfl).2.1⟩

/-- C5: whenever the screenshot step completes, the server gave a response
and the local write succeeded, and the step trace ends with a write of the
file `screenshot_<sessionId>.png` whose content is exactly the response
body bytes (`resp.content`, hence exactly as many bytes as the endpoint
returned), recorded before the step returns — i.e. the file is opened,
fully written and closed before the next step begins. -/
theorem screenshot_file_exact_bytes (sid : String) (env : Env) (s s' : RunState)
    (h : step7 sid env s = .ok s') :
    ∃ resp, env.http s.reqCount = .ok resp ∧ env.fileWrite = none ∧
      s'.events = s.events ++ (print_step 7 "截图").map .print ++
        [.print ("POST " ++ BASE_URL ++ "/api/page/screenshot"),
         .request (screenshotReq sid) (.ok resp),
         .print "✅ 截图成功",
         .print ("状态码: " ++ toString resp.status_code),
         .print ("图片大小: " ++ toString resp.content.length ++ " 字节"),
         .fileWrite ("screenshot_" ++ sid ++ ".png") resp.content,
         .print ("💾 截图已保存到: " ++ ("screenshot_" ++ sid ++ ".png"))] := by
  unfold step7 issue at h
  simp only [prints_reqCount, print_reqCount] at h
  cases hE : env.http s.reqCount with
  | connError => rw [hE] at h; simp at h
  | otherError m => rw [hE] at h; simp at h
  | ok resp =>
      rw [hE] at h
      cases hF : env.fileWrite with
      | some m => rw [hF] at h; simp at h
      | none =>
          rw [hF] at h
          simp only [StepRes.ok.injEq] at h
          subst h
          exact ⟨resp, rfl, rfl, by simp⟩

/-- Witness for `screenshot_file_exact_bytes` at a concrete three-byte
screenshot. -/
theorem screenshot_file_exact_bytes_witness :
    ∃ resp, envShot.http emptyState.reqCount = .ok resp ∧ envShot.fileWrite = none ∧
      shotState.events = emptyState.events ++ (print_step 7 "截图").map .print ++
        [.print ("POST " ++ BASE_URL ++ "/api/page/screenshot"),
         .request (screenshotReq "s") (.ok resp),
         .print "✅ 截图成功",
         .print ("状态码: " ++ toString resp.status_code),
         .print ("图片大小: " ++ toString resp.content.length ++ " 字节"),
         .fileWrite ("screenshot_" ++ "s" ++ ".png") resp.content,
         .print ("💾 截图已保存到: " ++ ("screenshot_" ++ "s" ++ ".png"))] :=
  screenshot_file_exact_bytes "s" envShot emptyState shotState rfl

/-- C7: if the title endpoint's body is the JSON object
`{"title": "Example"}`, the title step completes and the reported title
line is the label followed by exactly the string `"Example"`. -/
theorem title_example_value (sid : String) (env : Env) (s : RunState)
    (resp : HttpResponse) (hE : env.http s.reqCount = .ok resp)
    (hJ : resp.json = some (.obj [("title", .str "Example")])) :
    ∃ s', step3 sid env s = .ok s' ∧
      s'.events = s.events ++ (print_step 3 "获取页面标题").map .print ++
        [.print ("GET " ++ BASE_URL ++ "/api/page/title?sessionId=" ++ sid),
         .request (titleReq sid) (.ok resp)] ++
        (print_response "页面标题" resp).1.map .print ++
        [.print ("📄 标题内容: " ++ "Example")] := by
  have hstep : step3 sid env s = .ok
      (((((s.prints (print_step 3 "获取页面标题")).print
          ("GET " ++ BASE_URL ++ "/api/page/title?sessionId=" ++ sid)).addReq
          (titleReq sid) (.ok resp)).prints
          (print_response "页面标题" resp).1).print ("📄 标题内容: " ++ "Example")) := by
    unfold step3 issue
    simp only [prints_reqCount, print_reqCount]
    rw [hE]
    simp [print_response, hJ, fieldPrint, pyTruthy, pyGetD, dictGet, pyStr]
  exact ⟨_, hstep, by simp⟩

/-- Witness for `title_example_value`. -/
theorem title_example_value_witness :
    ∃ s', step3 "s" envTitle emptyState = .ok s' ∧
      s'.events = emptyState.events ++ (print_step 3 "获取页面标题").map .print ++
        [.print ("GET " ++ BASE_URL ++ "/api/page/title?sessionId=" ++ "s"),
         .request (titleReq "s") (.ok respTitle)] ++
        (print_response "页面标题" respTitle).1.map .print ++
        [.print ("📄 标题内容: " ++ "Example")] :=
  title_example_value "s" envTitle emptyState respTitle rfl rfl

/-- C8: a response whose body does not parse as JSON is reported by
`print_response` as raw text (`response.text`), with no structured value
returned (`none`) and no exception, and the step sequence continues: the
title step still completes, its trace ending right after the
`print_response` lines. -/
theorem non_json_reported_raw (title : String) (resp : HttpResponse)
    (hJ : resp.json = none) :
    print_response title resp =
      (["✅ " ++ title, "状态码: " ++ toString resp.status_code,
        "响应内容: " ++ resp.text], none) ∧
    ∀ sid env s, env.http s.reqCount = .ok resp →
      ∃ s', step3 sid env s = .ok s' ∧
        s'.events = s.events ++ (print_step 3 "获取页面标题").map .print ++
          [.print ("GET " ++ BASE_URL ++ "/api/page/title?sessionId=" ++ sid),
           .request (titleReq sid) (.ok resp)] ++
          (print_response "页面标题" resp).1.map .print := by
  constructor
  · simp [print_response, hJ]
  · intro sid env s hE
    have hstep : step3 sid env s = .ok
        ((((s.prints (print_step 3 "获取页面标题")).print
            ("GET " ++ BASE_URL ++ "/api/page/title?sessionId=" ++ sid)).addReq
            (titleReq sid) (.ok resp)).prints (print_response "页面标题" resp).1) := by
      unfold step3 issue
      simp only [prints_reqCount, print_reqCount]
      rw [hE]
      simp [print_response, hJ, fieldPrint]
    exact ⟨_, hstep, by simp⟩

/-- Witness for `non_json_reported_raw` at a concrete plain-text
response. -/
theorem non_json_reported_raw_witness :
    print_response "页面标题" okResp =
      (["✅ " ++ "页面标题", "状态码: " ++ toString okResp.status_code,
        "响应内容: " ++ okResp.text], none) ∧
    ∃ s', step3 "s" envOk emptyState = .ok s' ∧
      s'.events = emptyState.events ++ (print_step 3 "获取页面标题").map .print ++
        [.print ("GET " ++ BASE_URL ++ "/api/page/title?sessionId=" ++ "s"),
         .request (titleReq "s") (.ok okResp)] ++
        (print_response "页面标题" okResp).1.map .print :=
  ⟨(non_json_reported_raw "页面标题" okResp rfl).1,
   (non_json_reported_raw "页面标题" okResp rfl).2 "s" envOk emptyState rfl⟩

/-- C10: for the title, url, html and execute steps, when the response body
parses as JSON to a falsy value `j` (such as `{}` or `null`), the step
completes with its trace ending right after the `print_response` lines:
the follow-up field-extraction printout is skipped entirely — exactly as
for a non-JSON body — instead of printing the field's default value. -/
theorem falsy_json_skips_field_printout (j : Json) (hT : pyTruthy j = false)
    (sid : String) (env : Env) (resp : HttpResponse) (hJ : resp.json = some j)
    (s3 s5 s8 s9 : RunState)
    (h3 : env.http s3.reqCount = .ok resp) (h5 : env.http s5.reqCount = .ok resp)
    (h8 : env.http s8.reqCount = .ok resp) (h9 : env.http s9.reqCount = .ok resp) :
    (∃ s', step3 sid env s3 = .ok s' ∧
       s'.events = s3.events ++ (print_step 3 "获取页面标题").map .print ++
         [.print ("GET " ++ BASE_URL ++ "/api/page/title?sessionId=" ++ sid),
          .request (titleReq sid) (.ok resp)] ++
         (print_response "页面标题" resp).1.map .print) ∧
    (∃ s', step5 sid env s5 = .ok s' ∧
       s'.events = s5.events ++ (print_step 5 "获取页面 URL").map .print ++
         [.print ("GET " ++ BASE_URL ++ "/api/page/url?sessionId=" ++ sid),
          .request (urlReq sid) (.ok resp)] ++
         (print_response "当前页面 URL" resp).1.map .print) ∧
    (∃ s', step8 sid env s8 = .ok s' ∧
       s'.events = s8.events ++ (print_step 8 "获取页面 HTML").map .print ++
         [.print ("GET " ++ BASE_URL ++ "/api/page/html?sessionId=" ++ sid),
          .request (htmlReq sid) (.ok resp)] ++
         (print_response "页面 HTML" resp).1.map .print) ∧
    (∃ s', step9 sid env s9 = .ok s' ∧
       s'.events = s9.events ++ (print_step 9 "执行 JavaScript").map .print ++
         [.print ("POST " ++ BASE_URL ++ "/api/page/execute"),
          .request (executeReq sid) (.ok resp)] ++
         (print_response "执行结果" resp).1.map .print) := by
  refine ⟨?_, ?_, ?_, ?_⟩
  · have hstep : step3 sid env s3 = .ok
        ((((s3.prints (print_step 3 "获取页面标题")).print
            ("GET " ++ BASE_URL ++ "/api/page/title?sessionId=" ++ sid)).addReq
            (titleReq sid) (.ok resp)).prints (print_response "页面标题" resp).1) := by
      unfold step3 issue
      simp only [prints_reqCount, print_reqCount]
      rw [h3]
      simp [print_response, hJ, fieldPrint, hT]
    exact ⟨_, hstep, by simp⟩
  · have hstep : step5 sid env s5 = .ok
        ((((s5.prints (print_step 5 "获取页面 URL")).print
            ("GET " ++ BASE_URL ++ "/api/page/url?sessionId=" ++ sid)).addReq
            (urlReq sid) (.ok resp)).prints (print_response "当前页面 URL" resp).1) := by
      unfold step5 issue
      simp only [prints_reqCount, print_reqCount]
      rw [h5]
      simp [print_response, hJ, fieldPrint, hT]
    exact ⟨_, hstep, by simp⟩
  · have hstep : step8 sid env s8 = .ok
        ((((s8.prints (print_step 8 "获取页面 HTML")).print
            ("GET " ++ BASE_URL ++ "/api/page/html?sessionId=" ++ sid)).addReq
            (htmlReq sid) (.ok resp)).prints (print_response "页面 HTML" resp).1) := by
      unfold step8 issue
      simp only [prints_reqCount, print_reqCount]
      rw [h8]
      simp [print_response, hJ, hT]
    exact ⟨_, hstep, by simp⟩
  · have hstep : step9 sid env s9 = .ok
        ((((s9.prints (print_step 9 "执行 JavaScript")).print
            ("POST " ++ BASE_URL ++ "/api/page/execute")).addReq
            (executeReq sid) (.ok resp)).prints (print_response "执行结果" resp).1) := by
      unfold step9 issue
      simp only [prints_reqCount, print_reqCount]
      rw [h9]
      simp [print_response, hJ, fieldPrint, hT]
    exact ⟨_, hstep, by simp⟩

/-- Witness for `falsy_json_skips_field_printout` at the falsy body `{}`. -/
theorem falsy_json_skips_field_printout_witness :
    (∃ s', step3 "s" envEmpty emptyState = .ok s' ∧
       s'.events = emptyState.events ++ (print_step 3 "获取页面标题").map .print ++
         [.print ("GET " ++ BASE_URL ++ "/api/page/title?sessionId=" ++ "s"),
          .request (titleReq "s") (.ok respEmpty)] ++
         (print_response "页面标题" respEmpty).1.map .print) ∧
    (∃ s', step5 "s" envEmpty emptyState = .ok s' ∧
       s'.events = emptyState.events ++ (print_step 5 "获取页面 URL").map .print ++
         [.print ("GET " ++ BASE_URL ++ "/api/page/url?sessionId=" ++ "s"),
          .request (urlReq "s") (.ok respEmpty)] ++
         (print_response "当前页面 URL" respEmpty).1.map .print) ∧
    (∃ s', step8 "s" envEmpty emptyState = .ok s' ∧
       s'.events = emptyState.events ++ (print_step 8 "获取页面 HTML").map .print ++
         [.print ("GET " ++ BASE_URL ++ "/api/page/html?sessionId=" ++ "s"),
          .request (htmlReq "s") (.ok respEmpty)] ++
         (print_response "页面 HTML" respEmpty).1.map .print) ∧
    (∃ s', step9 "s" envEmpty emptyState = .ok s' ∧
       s'.events = emptyState.events ++ (print_step 9 "执行 JavaScript").map .print ++
         [.print ("POST " ++ BASE_URL ++ "/api/page/execute"),
          .request (executeReq "s") (.ok respEmpty)] ++
         (print_response "执行结果" respEmpty).1.map .print) :=
  falsy_json_skips_field_printout (.obj []) rfl "s" envEmpty respEmpty rfl
    emptyState emptyState emptyState emptyState rfl rfl rfl rfl

end HttpNavTest
